import Mathlib

/-!
Shallow embedding of the core of the `crypto-news-sentiment-app` repository
(files `app/storage.py`, `app/rss_collector.py`, `app/predictor.py`), together
with theorems settling the frozen claims about its specification.

Modelling conventions:
* Python strings are `String`; `str.strip` is modelled by `pyStrip`,
  slicing `[:n]` by `pyTake`, `encode("ascii","ignore").decode("ascii")`
  by `asciiOnly`, and the `x or y` idiom on strings by `pyOr`.
* The SQLite tables are lists of typed rows; `INSERT` appends,
  `INSERT OR IGNORE ... link UNIQUE` appends only when no stored row has the
  same link.  Nullable columns are `Option String`.
* Results of external libraries (`feedparser`, `requests`, `json.loads` on the
  model's reply, wall-clock time) enter the model as oracle inputs, typed to
  exactly the shapes the Python code consumes.
* Machine integers do not overflow here (Python ints are unbounded), so
  timestamps are plain `Int` and counters plain `Nat`.
-/

namespace CryptoNews

/-- Python `a or b` for strings: `b` when `a` is falsy (empty), else `a`. -/
def pyOr (a b : String) : String := if a = "" then b else a

/-- Python `str.strip()`: drop whitespace from both ends. -/
def pyStrip (s : String) : String :=
  String.mk (((s.data.dropWhile Char.isWhitespace).reverse.dropWhile Char.isWhitespace).reverse)

/-- Python slicing `s[:n]` (also SQL `substr(s, 1, n)`): first `n` characters. -/
def pyTake (n : Nat) (s : String) : String := String.mk (s.data.take n)

/-- Python `s.encode("ascii","ignore").decode("ascii")`: drop non-ASCII characters. -/
def asciiOnly (s : String) : String := String.mk (s.data.filter (fun c => c.toNat < 128))

/-- JSON values as produced by `json.loads` on the model's reply.
Numbers are modelled as integers (no claim touches numeric payloads). -/
inductive Json where
  | null : Json
  | bool : Bool → Json
  | num : Int → Json
  | str : String → Json
  | arr : List Json → Json
  | obj : List (String × Json) → Json

/-- `json.dumps` with Python's default separators.  String escaping is not
reproduced (no theorem inspects the rendered characters of a serialized
object; the serialization only appears symbolically as `Json.dumps data`). -/
def Json.dumps : Json → String
  | .null => "null"
  | .bool true => "true"
  | .bool false => "false"
  | .num n => toString n
  | .str s => "\"" ++ s ++ "\""
  | .arr xs => "[" ++ String.intercalate ", " (xs.attach.map (fun x => Json.dumps x.val)) ++ "]"
  | .obj kvs => "\x7b" ++ String.intercalate ", "
      (kvs.attach.map (fun p => "\"" ++ p.val.1 ++ "\": " ++ Json.dumps p.val.2)) ++ "\x7d"
decreasing_by
  · have := List.sizeOf_lt_of_mem x.property
    simp only [Json.arr.sizeOf_spec]
    omega
  · have h1 := List.sizeOf_lt_of_mem p.property
    have h2 : sizeOf p.val.2 < sizeOf p.val := by
      obtain ⟨a, b⟩ := p.val
      simp
    simp only [Json.obj.sizeOf_spec]
    omega

/-- Python truthiness of a JSON value. -/
def Json.truthy : Json → Bool
  | .null => false
  | .bool b => b
  | .num n => n != 0
  | .str s => s != ""
  | .arr xs => !xs.isEmpty
  | .obj kvs => !kvs.isEmpty

/-- Python `str(...)` applied to a JSON value.  Scalars follow Python exactly;
containers are approximated by their serialization (no theorem applies
`pyStr` to a container). -/
def pyStr : Json → String
  | .str s => s
  | .null => "None"
  | .bool true => "True"
  | .bool false => "False"
  | .num n => toString n
  | j => Json.dumps j

/-- Key lookup in a JSON object's association list.  `json.loads` produces a
Python dict, which never holds duplicate keys, so first-match lookup is exact. -/
def lookupJson : List (String × Json) → String → Option Json
  | [], _ => none
  | (k, v) :: rest, key => if k = key then some v else lookupJson rest key

/-- Whether a JSON value is an object (a Python dict). -/
def Json.isObjB : Json → Bool
  | .obj _ => true
  | _ => false

/-! ## `app/storage.py` -/

/-- A row of the `articles` table
(`title, link UNIQUE, source, published_ts, published_str, description, content, content_encoded`). -/
structure Article where
  title : String
  link : String
  source : String
  published_ts : Int
  published_str : Option String
  description : Option String
  content : Option String
  content_encoded : Option String
deriving DecidableEq, Repr

/-- A row of the `logs` table, as `(source, text)` (ids/timestamps elided). -/
abbrev LogRow := String × String

/-- The article dict assembled by the collector and consumed by `save_articles`. -/
structure ArticleInput where
  title : String
  link : String
  source : String
  published_ts : Int
  published_str : Option String
  description : Option String
  content : Option String
  content_encoded : Option String
deriving DecidableEq, Repr

/-- The row `save_articles` actually inserts: `title/link/source` are
`.strip()`-ed, the rest is stored as given. -/
def ArticleInput.toRow (a : ArticleInput) : Article :=
  { title := pyStrip a.title
    link := pyStrip a.link
    source := pyStrip a.source
    published_ts := a.published_ts
    published_str := a.published_str
    description := a.description
    content := a.content
    content_encoded := a.content_encoded }

/-- Whether some stored row already has this link (the `UNIQUE` constraint
consulted by `INSERT OR IGNORE`). -/
def hasLink (arts : List Article) (link : String) : Bool :=
  arts.any (fun r => r.link == link)

/-- `save_articles`: insert-or-ignore each input in order; a raising `execute`
(external engine fault, oracle `raises`) is caught, logged and skipped.
Returns (articles table, rows inserted, logs written). -/
def save_articles (raises : ArticleInput → Bool) (arts : List Article) :
    List ArticleInput → List Article × Nat × List LogRow
  | [] => (arts, 0, [])
  | a :: rest =>
    if raises a then
      let r := save_articles raises arts rest
      (r.1, r.2.1, ("db", "error inserting article: <exception>") :: r.2.2)
    else
      let row := a.toRow
      if hasLink arts row.link then
        save_articles raises arts rest
      else
        let r := save_articles raises (arts ++ [row]) rest
        (r.1, r.2.1 + 1, r.2.2)

/-- Maximum of a list of timestamps (SQL `MAX(published_ts)`), `none` on empty. -/
def maxTs : List Int → Option Int
  | [] => none
  | t :: ts =>
    match maxTs ts with
    | none => some t
    | some m => some (max t m)

/-- `get_latest_article_time`: `SELECT MAX(published_ts) FROM articles WHERE source=?`. -/
def get_latest_article_time (arts : List Article) (source : String) : Option Int :=
  maxTs ((arts.filter (fun a => a.source == source)).map (fun a => a.published_ts))

/-- One row of the `list_recent_articles` result:
`title, link, source, published_str, substr(coalesce(description, content, content_encoded, ''), 1, 300)`. -/
structure RowOut where
  title : String
  link : String
  source : String
  published_str : Option String
  body : String
deriving DecidableEq, Repr

/-- SQL `coalesce(a, b, c, '')`: first non-NULL value. -/
def sqlCoalesce3 (a b c : Option String) : String :=
  match a with
  | some s => s
  | none =>
    match b with
    | some s => s
    | none =>
      match c with
      | some s => s
      | none => ""

/-- Projection of an `articles` row to the `SELECT` list of `list_recent_articles`. -/
def articleRow (a : Article) : RowOut :=
  { title := a.title
    link := a.link
    source := a.source
    published_str := a.published_str
    body := pyTake 300 (sqlCoalesce3 a.description a.content a.content_encoded) }

/-- `ORDER BY published_ts DESC` as a relation. -/
def tsGe (a b : Article) : Prop := b.published_ts ≤ a.published_ts

instance : DecidableRel tsGe := fun a b => inferInstanceAs (Decidable (b.published_ts ≤ a.published_ts))

instance : IsTotal Article tsGe := ⟨fun a b => le_total b.published_ts a.published_ts⟩

instance : IsTrans Article tsGe := ⟨fun _ _ _ h1 h2 => le_trans h2 h1⟩

/-- `list_recent_articles(hours, limit)`: rows with
`published_ts >= now - hours*3600`, ordered by `published_ts` descending,
limited to `limit`, projected through the `SELECT` list. -/
def list_recent_articles (now : Int) (arts : List Article) (hours : Nat) (limit : Nat) :
    List RowOut :=
  let min_ts : Int := now - (hours : Int) * 3600
  ((((arts.filter (fun a => min_ts ≤ a.published_ts)).insertionSort tsGe).take limit).map articleRow)

/-! ## `app/rss_collector.py` -/

/-- A feed entry as consumed by `collect`.  `published_parsed` has three
shapes, mirroring feedparser: `none` when the key is absent, `some none` when
a publish date was present but unparseable (feedparser stores the key with
value `None`, on which `entry.published_parsed[:6]` raises `TypeError`), and
`some (some ts)` for a parsed date, carried as the UTC epoch seconds
resulting from the `struct_time → datetime → timestamp` conversion (stdlib);
`published_str` is the `strftime("%Y-%m-%d %H:%M:%S")` rendering of that same
time (stdlib).  `content` is feedparser's list of content objects, each with
a nullable `value`. -/
structure Entry where
  published_parsed : Option (Option Int)
  published_str : String
  title : Option String
  link : Option String
  description : Option String
  summary : Option String
  content : Option (List (Option String))
  content_encoded : Option String

/-- Outcome of `_parse_feed(url)`: `timeout` when the 10s bound fires
(`None` is returned), otherwise the feedparser document with its `bozo` flag
and entry list.  `feedparser.parse` traps its own errors into `bozo` and does
not raise. -/
inductive FetchResult where
  | timeout : FetchResult
  | doc : Bool → List Entry → FetchResult

/-- The fixed feed list `FEEDS`. -/
def FEEDS : List String :=
  [ "https://cointelegraph.com/rss"
  , "https://www.coindesk.com/arc/outboundfeeds/rss"
  , "https://www.newsbtc.com/feed/"
  , "https://99bitcoins.com/feed/"
  , "https://bitcoinethereumnews.com/feed/"
  , "https://bitcoinmagazine.com/feed"
  , "https://news.bitcoin.com/feed/"
  , "https://bitcoinik.com/feed/"
  , "https://www.bitrates.com/feed/rss"
  , "https://coin24h.com/feed/"
  , "https://coincentral.com/news/feed/"
  , "https://coincheckup.com/blog/feed/"
  , "https://coindoo.com/feed/"
  , "https://coinjournal.net/feed/"
  , "https://www.cryptobreaking.com/feed/"
  , "https://cryptobriefing.com/feed/"
  , "https://crypto-economy.com/feed/"
  , "https://www.crypto-news-flash.com/feed/"
  , "https://www.cryptonewsz.com/feed/"
  , "https://www.cryptoninjas.net/feed/"
  , "https://cryptopotato.com/feed/"
  , "https://cryptoticker.io/en/feed/"
  , "https://currencycrypt.net/feed/"
  , "https://www.financemagnates.com/cryptocurrency/feed/"
  , "https://fullycrypto.com/feed"
  , "https://thenewscrypto.com/feed/"
  , "https://u.today/rss"
  , "https://zycrypto.com/feed/" ]

/-- The per-entry body of `collect`'s loop: skip (`continue`) entries whose
`published_parsed` key is absent; raise `TypeError` when the key is present
with value `None` (`entry.published_parsed[:6]` subscripts `None`); skip
entries at or before the threshold; otherwise build the normalized article
dict appended to `to_save`. -/
def normalizeEntry (url : String) (threshold : Int) (e : Entry) :
    Except String (Option ArticleInput) :=
  match e.published_parsed with
  | none => .ok none
  | some none => .error "TypeError: NoneType object is not subscriptable"
  | some (some ts) =>
    if ts ≤ threshold then .ok none
    else
      let description := pyOr (pyOr (e.description.getD "") (e.summary.getD "")) ""
      let content :=
        match e.content with
        | some (v :: _) => v.getD ""
        | _ => ""
      let content_encoded := pyOr (e.content_encoded.getD "") ""
      .ok (some
        { title := asciiOnly (pyOr (e.title.getD "") "")
          link := e.link.getD ""
          source := url
          published_ts := ts
          published_str := some e.published_str
          description := some (asciiOnly description)
          content := some (asciiOnly content)
          content_encoded := some (asciiOnly content_encoded) })

/-- The `to_save` accumulation loop over a feed's entries: retained entries in
order, or the `TypeError` of the first entry with a present-but-unparseable
date, which discards the batch (nothing is saved for this source). -/
def buildToSave (url : String) (threshold : Int) :
    List Entry → Except String (List ArticleInput)
  | [] => .ok []
  | e :: rest =>
    match normalizeEntry url threshold e with
    | .error msg => .error msg
    | .ok none => buildToSave url threshold rest
    | .ok (some x) => (buildToSave url threshold rest).map (fun l => x :: l)

/-- What one iteration of `collect`'s loop over `FEEDS` does to the store:
the new `articles` table, the rows saved for this source, the logs written,
and — when an entry's present-but-unparseable date makes line 81 raise — the
propagating exception (`collect` has no handler for it). -/
structure SourceOutcome where
  articles : List Article
  saved : Nat
  logs : List LogRow
  exc : Option String

/-- One iteration of `collect`'s loop, acting on the `articles` table.
The threshold log renders the timestamp numerically (the Python code uses
`datetime.utcfromtimestamp`; no theorem reads log text). -/
def collectSourceCore (now : Int) (fetch : String → FetchResult)
    (raises : ArticleInput → Bool) (arts : List Article) (url : String) :
    SourceOutcome :=
  let latest := get_latest_article_time arts url
  let threshold := max (latest.getD 0) (now - 24 * 3600)
  let log0 : LogRow := ("rss", "using threshold for " ++ url ++ ": " ++ toString threshold ++ "Z")
  match fetch url with
  | .timeout => ⟨arts, 0, [log0, ("rss", "timeout parsing " ++ url)], none⟩
  | .doc bozo entries =>
    if bozo then
      ⟨arts, 0, [log0, ("rss", "feed bozo error for " ++ url ++ ": unknown")], none⟩
    else
      match buildToSave url threshold entries with
      | .error msg => ⟨arts, 0, [log0], some msg⟩
      | .ok to_save =>
        if !to_save.isEmpty then
          let r := save_articles raises arts to_save
          ⟨r.1, r.2.1,
            [log0] ++ r.2.2 ++
              [("rss", url ++ " -> saved " ++ toString r.2.1 ++ " new articles")], none⟩
        else
          ⟨arts, 0, [log0, ("rss", url ++ " -> no new articles")], none⟩

/-- The persistent state touched by the collector: the `articles` table and
the append-only `logs` table. -/
structure DB where
  articles : List Article
  logs : List LogRow

/-- `collect`'s loop over a list of feed urls, threading the store state and
accumulating the total of saved rows.  A `TypeError` raised while iterating a
feed's entries propagates: the remaining sources are not processed and the
caller gets the exception instead of a count (the store keeps whatever was
already written). -/
def collectFeeds (now : Int) (fetch : String → FetchResult)
    (raises : ArticleInput → Bool) : List String → DB → DB × Except String Nat
  | [], st => (st, .ok 0)
  | url :: rest, st =>
    let r := collectSourceCore now fetch raises st.articles url
    match r.exc with
    | some msg => (⟨r.articles, st.logs ++ r.logs⟩, .error msg)
    | none =>
      let r2 := collectFeeds now fetch raises rest ⟨r.articles, st.logs ++ r.logs⟩
      (r2.1, r2.2.map (fun t => r.saved + t))

/-- `collect()`: run the loop over the fixed `FEEDS` list.  The second
component is the returned count, or the exception `collect` raises to its
caller. -/
def collect (now : Int) (fetch : String → FetchResult)
    (raises : ArticleInput → Bool) (st : DB) : DB × Except String Nat :=
  collectFeeds now fetch raises FEEDS st

/-! ## `app/predictor.py` -/

/-- `HORIZON_MINUTES = 24 * 60`. -/
def HORIZON_MINUTES : Nat := 24 * 60

/-- The default model name used when neither the environment variable nor the
argument supplies one. -/
def defaultModel : String := "google/gemini-2.5-flash"

/-- `DEFAULT_SYSTEM`, the built-in system prompt. -/
def DEFAULT_SYSTEM : String :=
  "You analyze recent market text and produce structured JSON.\n" ++
  "Rules:\n" ++
  "- Return strictly valid JSON matching the provided schema.\n" ++
  "- horizon_minutes MUST be 1440 (24 hours).\n" ++
  "- overall_sentiment MUST be one of: bullish, bearish, neutral, mixed.\n" ++
  "- Only include assets in bullish/bearish if confidence is strong.\n" ++
  "- If only one side is supported, leave the other empty.\n" ++
  "- Focus on widely discussed topics and clearest trends.\n" ++
  "- Prioritize assets that recur across multiple articles.\n" ++
  "- Keep assets short (e.g., BTC, ETH, SOL) and predictions one sentence.\n" ++
  "- No extra commentary, no markdown.\n"

/-- One line of the prompt:
`f"{published_str} {title} | {snippet} [{link}]"` over the 5-tuple returned by
`list_recent_articles` (a NULL `published_str` renders as Python's `None`). -/
def fmtLine (r : RowOut) : String :=
  (match r.published_str with | some s => s | none => "None") ++ " " ++ r.title ++
    " | " ++ r.body ++ " [" ++ r.link ++ "]"

/-- `build_prompt`: framing text plus the article lines, most recent first, or
the fixed neutral sentence when there are no lines. -/
def build_prompt (articles : List RowOut) : String :=
  let lines := articles.map fmtLine
  let context := String.intercalate "\n- " lines
  if !lines.isEmpty then
    "HORIZON_MINUTES=" ++ toString HORIZON_MINUTES ++ "\n\n" ++
    "DATA_TIMESPAN: News articles from the past 24 hours.\n\n" ++
    "PREDICTION_HORIZON: Predict market movements for the next 24 hours (1440 minutes).\n\n" ++
    "Recent market context (most recent first):\n- " ++ context
  else
    "No recent articles found; respond with neutral sentiment and empty lists."

/-- A row of the `llm_queries` table (ids/timestamps elided). -/
structure LlmQueryRow where
  model : String
  prompt : String
  response : String
  tokens_used : Option Nat
  duration_ms : Option Nat
deriving DecidableEq, Repr

/-- A row of the `predictions` table (ids/timestamps elided). -/
structure PredictionRow where
  horizon_minutes : Nat
  model : String
  raw_json : String
  text : String
deriving DecidableEq, Repr

/-- A row of the `prediction_items` table (ids/timestamps elided). -/
structure PredictionItemRow where
  horizon_minutes : Nat
  model : String
  asset : String
  stance : String
  text : String
deriving DecidableEq, Repr

/-- The payload of one outbound `requests.post` to the LLM service. -/
structure LlmCall where
  model : String
  system : String
  user : String
deriving DecidableEq, Repr

/-- Oracle for the external HTTP interaction of one run.
`transportError` covers every path that lands in the outer `except` before
the first `add_llm_query`: `requests.post` raising, `raise_for_status` on a
non-2xx, `res.json()` failing, or the envelope lacking
`choices[0].message.content`.  `success` carries the serialized envelope
(`json.dumps(body)`), the extracted message content, the result of
`json.loads(content)` (`none` when it raises), and `usage.total_tokens`. -/
inductive LlmOutcome where
  | transportError : String → LlmOutcome
  | success : String → String → Option Json → Option Nat → LlmOutcome

/-- Environment of one `run` invocation: configuration, store state, and the
oracles for the external call and the wall clock. -/
structure RunEnv where
  api_key : String
  openrouter_model : Option String
  now : Int
  articles : List Article
  outcome : LlmOutcome
  duration_ms : Nat

/-- Everything `run` observably does: return value, logs, outbound calls, and
rows written to the three prediction-side tables. -/
structure RunResult where
  ret : Nat
  logs : List LogRow
  calls : List LlmCall
  llm_queries : List LlmQueryRow
  predictions : List PredictionRow
  prediction_items : List PredictionItemRow
deriving Repr

/-- Python `data.get(key)` — raises `AttributeError` when `data` is not a dict. -/
def pyGet (data : Json) (key : String) : Except String (Option Json) :=
  match data with
  | .obj kvs => .ok (lookupJson kvs key)
  | _ => .error "object has no attribute get"

/-- `str(item.get("asset","?")).strip()[:64]` and
`str(item.get("prediction","?")).strip()` — raises when `item` is not a dict. -/
def itemFields (item : Json) : Except String (String × String) :=
  match item with
  | .obj kvs =>
    .ok ( pyTake 64 (pyStrip (pyStr ((lookupJson kvs "asset").getD (.str "?"))))
        , pyStrip (pyStr ((lookupJson kvs "prediction").getD (.str "?"))) )
  | _ => .error "object has no attribute get"

/-- `data.get(stance_key) or []` followed by iteration: a missing or falsy
value iterates as empty; iterating a truthy non-list raises before any item of
that stance is saved (strings/dicts yield non-dict items whose `.get` raises,
numbers are not iterable). -/
def stanceIter (data : Json) (key : String) : Except String (List Json) :=
  match pyGet data key with
  | .error e => .error e
  | .ok none => .ok []
  | .ok (some v) =>
    if v.truthy then
      match v with
      | .arr xs => .ok xs
      | _ => .error "not iterable as item objects"
    else
      .ok []

/-- The inner `for item in ...` loop of one stance: each well-formed item
appends a `prediction_items` row; a raising item aborts with the rows saved so
far. -/
def processItems (model stance : String) (acc : List PredictionItemRow) :
    List Json → Except (List PredictionItemRow × String) (List PredictionItemRow)
  | [] => .ok acc
  | j :: rest =>
    match itemFields j with
    | .error e => .error (acc, e)
    | .ok (asset, text) =>
      processItems model stance
        (acc ++ [{ horizon_minutes := HORIZON_MINUTES, model := model, asset := asset
                   stance := stance, text := text }]) rest

/-- The outer `for stance_key in ("bullish", "bearish")` loop. -/
def processStancesFrom (model : String) (data : Json) (acc : List PredictionItemRow) :
    List String → Except (List PredictionItemRow × String) (List PredictionItemRow)
  | [] => .ok acc
  | key :: keys =>
    match stanceIter data key with
    | .error e => .error (acc, e)
    | .ok xs =>
      match processItems model key acc xs with
      | .error r => .error r
      | .ok acc2 => processStancesFrom model data acc2 keys

/-- Both stance loops of `run`, started with no rows saved. -/
def processStances (model : String) (data : Json) :
    Except (List PredictionItemRow × String) (List PredictionItemRow) :=
  processStancesFrom model data [] ["bullish", "bearish"]

/-- `run(model, system_prompt)` of `app/predictor.py`, transcribed over the
oracle environment. -/
def run (env : RunEnv) (model : String) (system_prompt : Option String) : RunResult :=
  let api_key := env.api_key
  let model := env.openrouter_model.getD (pyOr model defaultModel)
  if api_key = "" then
    { ret := 0
      logs := [("predictor", "OPENROUTER_API_KEY missing; cannot call LLM.")]
      calls := [], llm_queries := [], predictions := [], prediction_items := [] }
  else
    let articles := list_recent_articles env.now env.articles 24 300
    if articles.isEmpty then
      { ret := 0
        logs := [("predictor", "No articles in last 24h; collect RSS first.")]
        calls := [], llm_queries := [], predictions := [], prediction_items := [] }
    else
      let prompt := build_prompt articles
      let system := pyOr (system_prompt.getD "") DEFAULT_SYSTEM
      let log1 : LogRow := ("predictor",
        "Calling LLM model=" ++ model ++ " with " ++ toString articles.length ++
          " articles (24h horizon)")
      let call : LlmCall := { model := model, system := system, user := prompt }
      match env.outcome with
      | .transportError msg =>
        { ret := 0
          logs := [log1, ("predictor", "LLM API call failed: " ++ msg)]
          calls := [call]
          llm_queries := [{ model := model, prompt := prompt, response := "ERROR: " ++ msg
                            tokens_used := none, duration_ms := some env.duration_ms }]
          predictions := [], prediction_items := [] }
      | .success rawEnvelope content parsed tokens =>
        let q1 : LlmQueryRow := { model := model, prompt := prompt, response := content
                                  tokens_used := tokens, duration_ms := some env.duration_ms }
        match parsed with
        | none =>
          { ret := 0
            logs := [log1, ("predictor", "Model did not return valid JSON: <exception>")]
            calls := [call]
            llm_queries := [q1]
            predictions := [{ horizon_minutes := HORIZON_MINUTES, model := model
                              raw_json := rawEnvelope, text := pyOr content "" }]
            prediction_items := [] }
        | some data =>
          match pyGet data "overall_sentiment" with
          | .error e =>
            { ret := 0
              logs := [log1, ("predictor", "LLM API call failed: " ++ e)]
              calls := [call]
              llm_queries := [q1, { model := model, prompt := prompt
                                    response := "ERROR: " ++ e, tokens_used := none
                                    duration_ms := some env.duration_ms }]
              predictions := [], prediction_items := [] }
          | .ok v =>
            let overall := match v with | some j => pyStr j | none => "unknown"
            let pred : PredictionRow :=
              { horizon_minutes := HORIZON_MINUTES, model := model
                raw_json := Json.dumps data, text := "Overall sentiment: " ++ overall }
            match processStances model data with
            | .ok items =>
              { ret := items.length
                logs := [log1, ("predictor",
                  "Saved " ++ toString items.length ++ " prediction items in " ++
                    toString env.duration_ms ++ "ms")]
                calls := [call], llm_queries := [q1]
                predictions := [pred], prediction_items := items }
            | .error r =>
              { ret := 0
                logs := [log1, ("predictor", "LLM API call failed: " ++ r.2)]
                calls := [call]
                llm_queries := [q1, { model := model, prompt := prompt
                                      response := "ERROR: " ++ r.2, tokens_used := none
                                      duration_ms := some env.duration_ms }]
                predictions := [pred], prediction_items := r.1 }

/-! ## Claim C4 -/

/-- Claim C4: with no API credential configured, `run` returns 0, makes no
outbound call, and writes nothing to the store except the single audit log
entry — no Prediction, PredictionItem or LlmQuery rows. -/
theorem claim4_no_credential (env : RunEnv) (model : String) (sp : Option String)
    (h : env.api_key = "") :
    run env model sp =
      { ret := 0
        logs := [("predictor", "OPENROUTER_API_KEY missing; cannot call LLM.")]
        calls := [], llm_queries := [], predictions := [], prediction_items := [] } := by
  simp [run, h]

def c4env : RunEnv :=
  { api_key := "", openrouter_model := none, now := 0, articles := []
    outcome := .transportError "boom", duration_ms := 0 }

/-- Witness for C4 at a concrete environment. -/
theorem claim4_no_credential_witness :
    c4env.api_key = "" ∧
    run c4env "google/gemini-2.5-flash" none =
      { ret := 0
        logs := [("predictor", "OPENROUTER_API_KEY missing; cannot call LLM.")]
        calls := [], llm_queries := [], predictions := [], prediction_items := [] } :=
  ⟨rfl, claim4_no_credential c4env "google/gemini-2.5-flash" none rfl⟩

/-! ## Claim C2 -/

def c2art : Article :=
  { title := "t", link := "l", source := "s", published_ts := 50000
    published_str := some "2024-01-01 00:00:00", description := some "d"
    content := none, content_encoded := none }

def c2env : RunEnv :=
  { api_key := "k", openrouter_model := none, now := 100000, articles := [c2art]
    outcome := .success "ENVELOPE" "oops" none none, duration_ms := 5 }

/-- Counterexample to C2 as stated: with the non-JSON message content
`"oops"`, the single Prediction row's `text` is `"oops"`, the message content
— not empty. -/
theorem claim2_counterexample :
    (run c2env "m" none).predictions =
      [{ horizon_minutes := 1440, model := "m", raw_json := "ENVELOPE", text := "oops" }] ∧
    "oops" ≠ "" := by
  exact ⟨by decide, by decide⟩

/-- Claim C2 as amended: when the HTTP call succeeds but the message content
is not valid JSON, exactly one Prediction row is written, whose `raw_json` is
the entire API envelope and whose `text` is the message content (so empty only
when the content is empty); zero PredictionItem rows are written; exactly one
LlmQuery row records the attempt; and `run` returns 0. -/
theorem claim2_nonjson_containment (env : RunEnv) (model : String) (sp : Option String)
    (rawEnv content : String) (tokens : Option Nat)
    (hkey : ¬env.api_key = "")
    (hwin : (list_recent_articles env.now env.articles 24 300).isEmpty = false)
    (hout : env.outcome = .success rawEnv content none tokens) :
    (run env model sp).predictions =
      [{ horizon_minutes := HORIZON_MINUTES
         model := env.openrouter_model.getD (pyOr model defaultModel)
         raw_json := rawEnv, text := pyOr content "" }] ∧
    (run env model sp).prediction_items = [] ∧
    (run env model sp).llm_queries =
      [{ model := env.openrouter_model.getD (pyOr model defaultModel)
         prompt := build_prompt (list_recent_articles env.now env.articles 24 300)
         response := content, tokens_used := tokens, duration_ms := some env.duration_ms }] ∧
    (run env model sp).ret = 0 := by
  simp [run, hkey, hwin, hout]

/-- Witness for the amended C2 at the concrete environment of the
counterexample. -/
theorem claim2_nonjson_containment_witness :
    (¬c2env.api_key = "" ∧
      (list_recent_articles c2env.now c2env.articles 24 300).isEmpty = false ∧
      c2env.outcome = .success "ENVELOPE" "oops" none none) ∧
    (run c2env "m" none).predictions =
      [{ horizon_minutes := HORIZON_MINUTES
         model := c2env.openrouter_model.getD (pyOr "m" defaultModel)
         raw_json := "ENVELOPE", text := pyOr "oops" "" }] ∧
    (run c2env "m" none).prediction_items = [] ∧
    (run c2env "m" none).llm_queries =
      [{ model := c2env.openrouter_model.getD (pyOr "m" defaultModel)
         prompt := build_prompt (list_recent_articles c2env.now c2env.articles 24 300)
         response := "oops", tokens_used := none, duration_ms := some c2env.duration_ms }] ∧
    (run c2env "m" none).ret = 0 :=
  ⟨⟨by decide, by decide, rfl⟩,
    claim2_nonjson_containment c2env "m" none "ENVELOPE" "oops" none
      (by decide) (by decide) rfl⟩

/-! ## Claim C3 -/

def c3env : RunEnv :=
  { api_key := "k", openrouter_model := none, now := 100000, articles := []
    outcome := .transportError "unreached", duration_ms := 0 }

/-- Counterexample to C3 as stated: with a credential configured and no
qualifying articles, `run` makes zero LLM calls — the sentinel prompt is never
sent. -/
theorem claim3_counterexample :
    ¬c3env.api_key = "" ∧
    list_recent_articles c3env.now c3env.articles 24 300 = [] ∧
    (run c3env "m" none).calls = [] ∧
    (run c3env "m" none).ret = 0 := by
  exact ⟨by decide, rfl, by decide, by decide⟩

/-- Claim C3 as amended: `build_prompt` on an empty article list does return
the single fixed neutral sentence, but `run` returns 0 without invoking the
LLM when the article window is empty, so the sentinel prompt is never sent by
`run` — the model call is skipped on that path. -/
theorem claim3_sentinel_unreachable :
    build_prompt [] =
      "No recent articles found; respond with neutral sentiment and empty lists." ∧
    ∀ (env : RunEnv) (model : String) (sp : Option String),
      (list_recent_articles env.now env.articles 24 300).isEmpty = true →
      (run env model sp).calls = [] ∧ (run env model sp).ret = 0 := by
  refine ⟨rfl, fun env model sp hwin => ?_⟩
  by_cases hkey : env.api_key = "" <;> simp [run, hkey, hwin]

/-- Witness for the amended C3 at a concrete environment. -/
theorem claim3_sentinel_unreachable_witness :
    (list_recent_articles c3env.now c3env.articles 24 300).isEmpty = true ∧
    (run c3env "mm" none).calls = [] ∧ (run c3env "mm" none).ret = 0 :=
  ⟨by decide, claim3_sentinel_unreachable.2 c3env "mm" none (by decide)⟩

/-! ## Claim C6 -/

def c6art : Article :=
  { title := "t", link := "l", source := "s", published_ts := 50000
    published_str := some "2024-01-01 00:00:00", description := some "d"
    content := none, content_encoded := none }

def c6data : Json :=
  .obj [ ("overall_sentiment", .str "bullish")
       , ("bullish", .arr [.obj [("asset", .str "BTC"), ("prediction", .str "up")]])
       , ("bearish", .arr []) ]

def c6env : RunEnv :=
  { api_key := "k", openrouter_model := none, now := 100000, articles := [c6art]
    outcome := .success "ENV" "CONTENT" (some c6data) (some 42), duration_ms := 5 }

def c6dataB : Json :=
  .obj [ ("overall_sentiment", .str "mixed")
       , ("bullish", .arr [.obj [("asset", .str "BTC"), ("prediction", .str "up")]])
       , ("bearish", .arr [.obj [("asset", .str "ETH"), ("prediction", .str "down")]]) ]

def c6envB : RunEnv :=
  { c6env with outcome := .success "ENV" "CONTENT" (some c6dataB) none }

/-- Claim C6: on the valid JSON response
`(overall_sentiment bullish, bullish [(BTC, up)], bearish [])`, `run` writes
exactly one Prediction row with the stated text and the re-serialized parsed
object as `raw_json`, exactly one PredictionItem row `(BTC, bullish, up)`, and
returns 1 — the number of PredictionItem rows written; a second input with
both stances shows the bullish-then-bearish processing order. -/
theorem claim6_round_trip :
    (run c6env "m" none).predictions =
      [{ horizon_minutes := HORIZON_MINUTES, model := "m", raw_json := Json.dumps c6data
         text := "Overall sentiment: bullish" }] ∧
    (run c6env "m" none).prediction_items =
      [{ horizon_minutes := 1440, model := "m", asset := "BTC", stance := "bullish"
         text := "up" }] ∧
    (run c6env "m" none).ret = 1 ∧
    (run c6env "m" none).ret = (run c6env "m" none).prediction_items.length ∧
    (run c6envB "m" none).prediction_items =
      [ { horizon_minutes := 1440, model := "m", asset := "BTC", stance := "bullish"
          text := "up" }
      , { horizon_minutes := 1440, model := "m", asset := "ETH", stance := "bearish"
          text := "down" } ] ∧
    (run c6envB "m" none).ret = 2 := by
  exact ⟨rfl, by decide, by decide, by decide, by decide, by decide⟩

/-! ## Shared lemmas about the stance-processing loops -/

/-- The `prediction_items` rows a stance-loop outcome has written: all of them
on success, the ones saved before the raise on failure. -/
def resultRows (r : Except (List PredictionItemRow × String) (List PredictionItemRow)) :
    List PredictionItemRow :=
  match r with
  | .ok l => l
  | .error p => p.1

theorem processItems_model (model stance : String) (xs : List Json) :
    ∀ acc, (∀ r ∈ acc, r.model = model) →
      ∀ r ∈ resultRows (processItems model stance acc xs), r.model = model := by
  induction xs with
  | nil => intro acc h; simpa [processItems, resultRows] using h
  | cons j rest ih =>
    intro acc h
    simp only [processItems]
    cases hj : itemFields j with
    | error e => simpa [resultRows] using h
    | ok p =>
      obtain ⟨asset, text⟩ := p
      refine ih _ (fun r hr => ?_)
      rcases List.mem_append.mp hr with h1 | h2
      · exact h r h1
      · simp at h2; simp [h2]

theorem processStancesFrom_model (model : String) (data : Json) (keys : List String) :
    ∀ acc, (∀ r ∈ acc, r.model = model) →
      ∀ r ∈ resultRows (processStancesFrom model data acc keys), r.model = model := by
  induction keys with
  | nil => intro acc h; simpa [processStancesFrom, resultRows] using h
  | cons key keys ih =>
    intro acc h
    simp only [processStancesFrom]
    cases hs : stanceIter data key with
    | error e => simpa [resultRows] using h
    | ok xs =>
      dsimp only
      cases hp : processItems model key acc xs with
      | error r =>
        have := processItems_model model key xs acc h
        rw [hp] at this
        simpa [resultRows] using this
      | ok acc2 =>
        dsimp only
        refine ih acc2 ?_
        have := processItems_model model key xs acc h
        rwa [hp] at this

theorem processStances_model (model : String) (data : Json) :
    ∀ r ∈ resultRows (processStances model data), r.model = model := by
  exact processStancesFrom_model model data ["bullish", "bearish"] [] (by simp)

/-! ## Claim C10 -/

/-- Every model name observable in a `run` result: in the outbound call and in
each persisted LlmQuery, Prediction and PredictionItem row. -/
def usedModels (r : RunResult) : List String :=
  r.calls.map (fun c => c.model) ++ r.llm_queries.map (fun q => q.model) ++
    r.predictions.map (fun p => p.model) ++ r.prediction_items.map (fun p => p.model)

theorem run_models (env : RunEnv) (model : String) (sp : Option String) :
    ∀ m ∈ usedModels (run env model sp),
      m = env.openrouter_model.getD (pyOr model defaultModel) := by
  intro m hm
  by_cases hkey : env.api_key = ""
  · simp [run, usedModels, hkey] at hm
  · by_cases hwin : (list_recent_articles env.now env.articles 24 300).isEmpty = true
    · simp [run, usedModels, hkey, hwin] at hm
    · cases hout : env.outcome with
      | transportError msg =>
        simp [run, usedModels, hkey, hwin, hout] at hm
        tauto
      | success re c parsed tk =>
        cases parsed with
        | none =>
          simp [run, usedModels, hkey, hwin, hout] at hm
          tauto
        | some data =>
          cases hget : pyGet data "overall_sentiment" with
          | error e =>
            simp [run, usedModels, hkey, hwin, hout, hget] at hm
            tauto
          | ok v =>
            cases hst : processStances (env.openrouter_model.getD (pyOr model defaultModel)) data with
            | ok items =>
              simp [run, usedModels, hkey, hwin, hout, hget, hst, -List.mem_map] at hm
              rcases hm with hm | hm
              · exact hm
              · obtain ⟨row, hmem, hrm⟩ := List.mem_map.mp hm
                have hmod := processStances_model
                  (env.openrouter_model.getD (pyOr model defaultModel)) data
                  row (by rw [hst]; exact hmem)
                rw [← hrm]; exact hmod
            | error rr =>
              simp [run, usedModels, hkey, hwin, hout, hget, hst, -List.mem_map] at hm
              rcases hm with hm | hm
              · exact hm
              · obtain ⟨row, hmem, hrm⟩ := List.mem_map.mp hm
                have hmod := processStances_model
                  (env.openrouter_model.getD (pyOr model defaultModel)) data
                  row (by rw [hst]; exact hmem)
                rw [← hrm]; exact hmod

/-- Claim C10: a set `OPENROUTER_MODEL` replaces the caller-supplied model
argument everywhere (outbound call and all persisted rows); the argument is
used only when the variable is unset; and `google/gemini-2.5-flash` is used
when the variable is unset and the argument is empty. -/
theorem claim10_model_override :
    (∀ (env : RunEnv) (model : String) (sp : Option String) (v : String),
      env.openrouter_model = some v →
      ∀ m ∈ usedModels (run env model sp), m = v) ∧
    (∀ (env : RunEnv) (model : String) (sp : Option String),
      env.openrouter_model = none → ¬model = "" →
      ∀ m ∈ usedModels (run env model sp), m = model) ∧
    (∀ (env : RunEnv) (model : String) (sp : Option String),
      env.openrouter_model = none → model = "" →
      ∀ m ∈ usedModels (run env model sp), m = defaultModel) := by
  refine ⟨?_, ?_, ?_⟩
  · intro env model sp v hv m hm
    have := run_models env model sp m hm
    simpa [hv] using this
  · intro env model sp hv hmod m hm
    have := run_models env model sp m hm
    simpa [hv, pyOr, hmod] using this
  · intro env model sp hv hmod m hm
    have := run_models env model sp m hm
    simpa [hv, pyOr, hmod] using this

def c10env : RunEnv :=
  { api_key := "k", openrouter_model := some "override", now := 100000
    articles := [{ title := "t", link := "l", source := "s", published_ts := 50000
                   published_str := some "p", description := some "d"
                   content := none, content_encoded := none }]
    outcome := .transportError "boom", duration_ms := 3 }

/-- Witness for C10: with `OPENROUTER_MODEL = "override"` the override is the
model actually used, whatever the argument was. -/
theorem claim10_model_override_witness :
    c10env.openrouter_model = some "override" ∧
    "override" ∈ usedModels (run c10env "mm" none) ∧
    "override" = "override" :=
  ⟨rfl, by decide,
    claim10_model_override.1 c10env "mm" none "override" rfl "override" (by decide)⟩

/-! ## Claim C5 -/

/-- A stance value the Python loop traverses without raising: absent, falsy,
or a list whose members are all objects. -/
def stanceOk : Option Json → Bool
  | none => true
  | some v =>
    !v.truthy ||
      (match v with
       | .arr xs => xs.all Json.isObjB
       | _ => false)

/-- A parsed response the item-extraction phase of `run` traverses without
raising: a JSON object whose `bullish` and `bearish` values are both
traversable. -/
def parsedOk : Json → Bool
  | .obj kvs => stanceOk (lookupJson kvs "bullish") && stanceOk (lookupJson kvs "bearish")
  | _ => false

theorem stanceIter_ok (kvs : List (String × Json)) (key : String)
    (h : stanceOk (lookupJson kvs key) = true) :
    ∃ xs, stanceIter (.obj kvs) key = .ok xs ∧ xs.all Json.isObjB = true := by
  cases hl : lookupJson kvs key with
  | none => exact ⟨[], by simp [stanceIter, pyGet, hl], rfl⟩
  | some v =>
    rw [hl] at h
    unfold stanceOk at h
    by_cases ht : v.truthy = true
    · simp only [ht, Bool.not_true, Bool.false_or] at h
      cases v with
      | arr xs => exact ⟨xs, by simp [stanceIter, pyGet, hl, ht], by simpa using h⟩
      | null => simp at h
      | bool b => simp at h
      | num n => simp at h
      | str s => simp at h
      | obj o => simp at h
    · have ht' : v.truthy = false := by simpa using ht
      exact ⟨[], by simp [stanceIter, pyGet, hl, ht'], rfl⟩

theorem processItems_ok (model stance : String) (xs : List Json)
    (h : xs.all Json.isObjB = true) :
    ∀ acc, ∃ res, processItems model stance acc xs = .ok res := by
  induction xs with
  | nil => exact fun acc => ⟨acc, rfl⟩
  | cons j rest ih =>
    intro acc
    simp only [List.all_cons, Bool.and_eq_true] at h
    obtain ⟨hj, hrest⟩ := h
    cases j with
    | obj kvs =>
      simp only [processItems, itemFields]
      exact ih hrest _
    | null => simp [Json.isObjB] at hj
    | bool b => simp [Json.isObjB] at hj
    | num n => simp [Json.isObjB] at hj
    | str s => simp [Json.isObjB] at hj
    | arr a => simp [Json.isObjB] at hj

theorem processStances_ok (model : String) (data : Json)
    (h : parsedOk data = true) :
    ∃ items, processStances model data = .ok items := by
  cases data with
  | obj kvs =>
    unfold parsedOk at h
    simp only [Bool.and_eq_true] at h
    obtain ⟨hb1, hb2⟩ := h
    obtain ⟨xs1, hx1, ha1⟩ := stanceIter_ok kvs "bullish" hb1
    obtain ⟨xs2, hx2, ha2⟩ := stanceIter_ok kvs "bearish" hb2
    obtain ⟨acc1, hacc1⟩ := processItems_ok model "bullish" xs1 ha1 []
    obtain ⟨acc2, hacc2⟩ := processItems_ok model "bearish" xs2 ha2 acc1
    refine ⟨acc2, ?_⟩
    simp [processStances, processStancesFrom, hx1, hacc1, hx2, hacc2]
  | null => simp [parsedOk] at h
  | bool b => simp [parsedOk] at h
  | num n => simp [parsedOk] at h
  | str s => simp [parsedOk] at h
  | arr a => simp [parsedOk] at h

/-- Claim C5 as amended: whenever `run` reaches the LLM invocation, it makes
exactly one outbound call; the invocation yields exactly one LlmQuery row —
recording the model, the exact prompt, the response text (or an error
marker), the reported token count, and the elapsed milliseconds — on
transport failure, on a non-JSON response, and on a parsed response whose
stance values are traversable; in every case at least one and at most two
LlmQuery rows are written (a second, error-marked row appears exactly when
item extraction raises on a malformed parsed shape). -/
theorem claim5_audit (env : RunEnv) (model : String) (sp : Option String)
    (hkey : ¬env.api_key = "")
    (hwin : (list_recent_articles env.now env.articles 24 300).isEmpty = false) :
    (run env model sp).calls.length = 1 ∧
    (∀ msg, env.outcome = .transportError msg →
      (run env model sp).llm_queries =
        [{ model := env.openrouter_model.getD (pyOr model defaultModel)
           prompt := build_prompt (list_recent_articles env.now env.articles 24 300)
           response := "ERROR: " ++ msg, tokens_used := none
           duration_ms := some env.duration_ms }]) ∧
    (∀ re c tk, env.outcome = .success re c none tk →
      (run env model sp).llm_queries =
        [{ model := env.openrouter_model.getD (pyOr model defaultModel)
           prompt := build_prompt (list_recent_articles env.now env.articles 24 300)
           response := c, tokens_used := tk, duration_ms := some env.duration_ms }]) ∧
    (∀ re c data tk, env.outcome = .success re c (some data) tk → parsedOk data = true →
      (run env model sp).llm_queries =
        [{ model := env.openrouter_model.getD (pyOr model defaultModel)
           prompt := build_prompt (list_recent_articles env.now env.articles 24 300)
           response := c, tokens_used := tk, duration_ms := some env.duration_ms }]) ∧
    1 ≤ (run env model sp).llm_queries.length ∧
    (run env model sp).llm_queries.length ≤ 2 := by
  have hwin' : ¬(list_recent_articles env.now env.articles 24 300).isEmpty = true := by
    simp [hwin]
  refine ⟨?_, ?_, ?_, ?_, ?_⟩
  · cases hout : env.outcome with
    | transportError msg => simp [run, hkey, hwin', hout]
    | success re c parsed tk =>
      cases parsed with
      | none => simp [run, hkey, hwin', hout]
      | some data =>
        cases hget : pyGet data "overall_sentiment" with
        | error e => simp [run, hkey, hwin', hout, hget]
        | ok v =>
          cases hst : processStances (env.openrouter_model.getD (pyOr model defaultModel)) data with
          | ok items => simp [run, hkey, hwin', hout, hget, hst]
          | error rr => simp [run, hkey, hwin', hout, hget, hst]
  · intro msg hout
    simp [run, hkey, hwin', hout]
  · intro re c tk hout
    simp [run, hkey, hwin', hout]
  · intro re c data tk hout hokd
    obtain ⟨items, hst⟩ :=
      processStances_ok (env.openrouter_model.getD (pyOr model defaultModel)) data hokd
    have hobj : ∃ kvs, data = .obj kvs := by
      cases data with
      | obj kvs => exact ⟨kvs, rfl⟩
      | null => simp [parsedOk] at hokd
      | bool b => simp [parsedOk] at hokd
      | num n => simp [parsedOk] at hokd
      | str s => simp [parsedOk] at hokd
      | arr a => simp [parsedOk] at hokd
    obtain ⟨kvs, rfl⟩ := hobj
    simp [run, hkey, hwin', hout, hst, pyGet]
  · constructor
    · cases hout : env.outcome with
      | transportError msg => simp [run, hkey, hwin', hout]
      | success re c parsed tk =>
        cases parsed with
        | none => simp [run, hkey, hwin', hout]
        | some data =>
          cases hget : pyGet data "overall_sentiment" with
          | error e => simp [run, hkey, hwin', hout, hget]
          | ok v =>
            cases hst : processStances (env.openrouter_model.getD (pyOr model defaultModel)) data with
            | ok items => simp [run, hkey, hwin', hout, hget, hst]
            | error rr => simp [run, hkey, hwin', hout, hget, hst]
    · cases hout : env.outcome with
      | transportError msg => simp [run, hkey, hwin', hout]
      | success re c parsed tk =>
        cases parsed with
        | none => simp [run, hkey, hwin', hout]
        | some data =>
          cases hget : pyGet data "overall_sentiment" with
          | error e => simp [run, hkey, hwin', hout, hget]
          | ok v =>
            cases hst : processStances (env.openrouter_model.getD (pyOr model defaultModel)) data with
            | ok items => simp [run, hkey, hwin', hout, hget, hst]
            | error rr => simp [run, hkey, hwin', hout, hget, hst]

def c5data : Json := .obj [("overall_sentiment", .str "neutral"), ("bullish", .str "abc")]

def c5env : RunEnv :=
  { api_key := "k", openrouter_model := none, now := 100000
    articles := [{ title := "t", link := "l", source := "s", published_ts := 50000
                   published_str := some "p", description := some "d"
                   content := none, content_encoded := none }]
    outcome := .success "E" "C" (some c5data) none, duration_ms := 7 }

/-- Counterexample to C5 as stated: a successfully parsed response whose
`bullish` value is the (truthy, non-list) string `"abc"` makes the item loop
raise, and the single LLM invocation attempt produces two LlmQuery rows, not
exactly one. -/
theorem claim5_counterexample :
    c5env.outcome = .success "E" "C" (some c5data) none ∧
    (run c5env "m" none).calls.length = 1 ∧
    (run c5env "m" none).llm_queries.length = 2 := by
  exact ⟨rfl, by decide, by decide⟩

def c5wenv : RunEnv :=
  { api_key := "k", openrouter_model := none, now := 100000
    articles := [{ title := "t", link := "l", source := "s", published_ts := 50000
                   published_str := some "p", description := some "d"
                   content := none, content_encoded := none }]
    outcome := .transportError "boom", duration_ms := 7 }

/-- Witness for the amended C5 at a concrete transport-failure environment. -/
theorem claim5_audit_witness :
    (¬c5wenv.api_key = "" ∧
      (list_recent_articles c5wenv.now c5wenv.articles 24 300).isEmpty = false ∧
      c5wenv.outcome = .transportError "boom") ∧
    (run c5wenv "m" none).llm_queries =
      [{ model := c5wenv.openrouter_model.getD (pyOr "m" defaultModel)
         prompt := build_prompt (list_recent_articles c5wenv.now c5wenv.articles 24 300)
         response := "ERROR: " ++ "boom", tokens_used := none
         duration_ms := some c5wenv.duration_ms }] :=
  ⟨⟨by decide, by decide, rfl⟩,
    (claim5_audit c5wenv "m" none (by decide) (by decide)).2.1 "boom" rfl⟩

/-! ## Claim C7 -/

/-- Claim C7: `list_recent_articles hours limit` returns exactly the stored
articles with `published_ts ≥ now − hours·3600`, ordered by `published_ts`
descending and truncated to `limit` rows, each projected so that its body is
the first 300 characters of `coalesce(description, content, content_encoded, '')`.
The returned rows `sel` and the dropped in-window rows `rest` together permute
the in-window set while `sel ++ rest` is sorted descending, so `sel` is
precisely a most-recent-first prefix of the in-window rows: every dropped row
is at most as recent as every returned row. -/
theorem claim7_recent_articles (now : Int) (arts : List Article) (hours limit : Nat) :
    ∃ sel rest : List Article,
      list_recent_articles now arts hours limit = sel.map articleRow ∧
      List.Perm (sel ++ rest)
        (arts.filter (fun a => now - (hours : Int) * 3600 ≤ a.published_ts)) ∧
      List.Sorted tsGe (sel ++ rest) ∧
      sel.length =
        min limit (arts.filter (fun a => now - (hours : Int) * 3600 ≤ a.published_ts)).length ∧
      (∀ a ∈ sel, a ∈ arts ∧ now - (hours : Int) * 3600 ≤ a.published_ts) ∧
      ∀ a ∈ sel, (articleRow a).body =
        pyTake 300 (sqlCoalesce3 a.description a.content a.content_encoded) := by
  refine ⟨((arts.filter (fun a => now - (hours : Int) * 3600 ≤ a.published_ts)).insertionSort
      tsGe).take limit,
    ((arts.filter (fun a => now - (hours : Int) * 3600 ≤ a.published_ts)).insertionSort
      tsGe).drop limit,
    ?_, ?_, ?_, ?_, ?_, fun a _ => rfl⟩
  · rfl
  · rw [List.take_append_drop]
    exact List.perm_insertionSort tsGe _
  · rw [List.take_append_drop]
    exact List.sorted_insertionSort tsGe _
  · rw [List.length_take, List.length_insertionSort]
  · intro a ha
    have h1 := List.mem_of_mem_take ha
    rw [List.mem_insertionSort] at h1
    have h2 := List.mem_filter.mp h1
    exact ⟨h2.1, of_decide_eq_true h2.2⟩

/-! ## Claim C8 -/

/-- Claim C8: re-inserting an article whose (stripped) link is already stored
is silently absorbed — no count, no change, no update; hence re-running
`save_articles` over an unchanged batch (without engine faults) inserts zero
new rows and leaves the table unchanged; and a single row whose insert raises
is logged and skipped while the rest of the batch is still processed. -/
theorem claim8_idempotent_ingestion :
    (∀ (raises : ArticleInput → Bool) (arts : List Article) (a : ArticleInput)
        (rest : List ArticleInput),
      raises a = false → hasLink arts a.toRow.link = true →
      save_articles raises arts (a :: rest) = save_articles raises arts rest) ∧
    (∀ (arts : List Article) (batch : List ArticleInput),
      (save_articles (fun _ => false)
        (save_articles (fun _ => false) arts batch).1 batch).2.1 = 0 ∧
      (save_articles (fun _ => false)
        (save_articles (fun _ => false) arts batch).1 batch).1 =
          (save_articles (fun _ => false) arts batch).1) ∧
    (∀ (raises : ArticleInput → Bool) (arts : List Article) (a : ArticleInput)
        (rest : List ArticleInput),
      raises a = true →
      save_articles raises arts (a :: rest) =
        ((save_articles raises arts rest).1,
         (save_articles raises arts rest).2.1,
         ("db", "error inserting article: <exception>") :: (save_articles raises arts rest).2.2)) := by
  refine ⟨?_, ?_, ?_⟩
  · intro raises arts a rest hr hl
    simp [save_articles, hr, hl]
  · intro arts batch
    have hrerun : ∀ (batch' : List ArticleInput) (db : List Article),
        (∀ a ∈ batch', hasLink db a.toRow.link = true) →
        save_articles (fun _ => false) db batch' = (db, 0, []) := by
      intro batch'
      induction batch' with
      | nil => intro db _; rfl
      | cons a rest ih =>
        intro db h
        have ha := h a (by simp)
        simp only [save_articles, Bool.false_eq_true, if_false, ha, if_true]
        exact ih db (fun x hx => h x (by simp [hx]))
    have hpresent : ∀ (batch' : List ArticleInput) (db : List Article) (a : ArticleInput),
        a ∈ batch' →
        hasLink (save_articles (fun _ => false) db batch').1 a.toRow.link = true := by
      intro batch'
      induction batch' with
      | nil => intro db a ha; simp at ha
      | cons b rest ih =>
        intro db a ha
        have hgrow : ∀ (db' : List Article) (batch'' : List ArticleInput) (l : String),
            hasLink db' l = true →
            hasLink (save_articles (fun _ => false) db' batch'').1 l = true := by
          intro db' batch''
          induction batch'' generalizing db' with
          | nil => intro l h; exact h
          | cons c rest' ih' =>
            intro l h
            simp only [save_articles, Bool.false_eq_true, if_false]
            by_cases hc : hasLink db' c.toRow.link = true
            · rw [if_pos hc]; exact ih' db' l h
            · rw [if_neg hc]
              refine ih' (db' ++ [c.toRow]) l ?_
              simp [hasLink, List.any_append] at h ⊢
              exact Or.inl h
        rcases List.mem_cons.mp ha with rfl | hrest
        · simp only [save_articles, Bool.false_eq_true, if_false]
          by_cases hb : hasLink db a.toRow.link = true
          · rw [if_pos hb]; exact hgrow db rest _ hb
          · rw [if_neg hb]
            refine hgrow (db ++ [a.toRow]) rest _ ?_
            simp [hasLink, List.any_append]
        · simp only [save_articles, Bool.false_eq_true, if_false]
          by_cases hb : hasLink db b.toRow.link = true
          · rw [if_pos hb]; exact ih db a hrest
          · rw [if_neg hb]; exact ih (db ++ [b.toRow]) a hrest
    have h2 := hrerun batch (save_articles (fun _ => false) arts batch).1
      (fun a ha => hpresent batch arts a ha)
    rw [h2]
    exact ⟨rfl, rfl⟩
  · intro raises arts a rest hr
    simp [save_articles, hr]

/-! ## Claim C9 -/

theorem collectFeeds_logs_irrelevant (now : Int) (fetch : String → FetchResult)
    (raises : ArticleInput → Bool) (urls : List String) :
    ∀ st₁ st₂ : DB, st₁.articles = st₂.articles →
      (collectFeeds now fetch raises urls st₁).1.articles =
        (collectFeeds now fetch raises urls st₂).1.articles ∧
      (collectFeeds now fetch raises urls st₁).2 =
        (collectFeeds now fetch raises urls st₂).2 := by
  induction urls with
  | nil => intro st₁ st₂ h; exact ⟨h, rfl⟩
  | cons url rest ih =>
    intro st₁ st₂ h
    simp only [collectFeeds, h]
    cases hexc : (collectSourceCore now fetch raises st₂.articles url).exc with
    | some msg => exact ⟨rfl, rfl⟩
    | none =>
      have h1 := ih
        ⟨(collectSourceCore now fetch raises st₂.articles url).articles,
          st₁.logs ++ (collectSourceCore now fetch raises st₂.articles url).logs⟩
        ⟨(collectSourceCore now fetch raises st₂.articles url).articles,
          st₂.logs ++ (collectSourceCore now fetch raises st₂.articles url).logs⟩ rfl
      exact ⟨h1.1, by rw [h1.2]⟩

theorem collectSourceCore_fault (now : Int) (fetch : String → FetchResult)
    (raises : ArticleInput → Bool) (arts : List Article) (url : String)
    (h : fetch url = .timeout ∨ ∃ es, fetch url = .doc true es) :
    (collectSourceCore now fetch raises arts url).articles = arts ∧
    (collectSourceCore now fetch raises arts url).saved = 0 ∧
    (collectSourceCore now fetch raises arts url).exc = none ∧
    (collectSourceCore now fetch raises arts url).logs ≠ [] := by
  rcases h with h | ⟨es, h⟩ <;> simp [collectSourceCore, h]

theorem buildToSave_error (url : String) (th : Int) :
    ∀ es : List Entry, (∃ e ∈ es, e.published_parsed = some none) →
      ∃ msg, buildToSave url th es = .error msg := by
  intro es
  induction es with
  | nil => rintro ⟨e, he, _⟩; simp at he
  | cons a rest ih =>
    rintro ⟨e, he, hpe⟩
    rcases List.mem_cons.mp he with rfl | hrest
    · exact ⟨"TypeError: NoneType object is not subscriptable",
        by simp [buildToSave, normalizeEntry, hpe]⟩
    · cases hn : normalizeEntry url th a with
      | error msg => exact ⟨msg, by simp [buildToSave, hn]⟩
      | ok o =>
        obtain ⟨msg, hmsg⟩ := ih ⟨e, hrest, hpe⟩
        cases o with
        | none => exact ⟨msg, by simp [buildToSave, hn, hmsg]⟩
        | some x => exact ⟨msg, by simp [buildToSave, hn, hmsg, Except.map]⟩

theorem collectSourceCore_raise (now : Int) (fetch : String → FetchResult)
    (raises : ArticleInput → Bool) (arts : List Article) (url : String)
    (es : List Entry) (hf : fetch url = .doc false es)
    (hbad : ∃ e ∈ es, e.published_parsed = some none) :
    (collectSourceCore now fetch raises arts url).articles = arts ∧
    (collectSourceCore now fetch raises arts url).saved = 0 ∧
    ∃ msg, (collectSourceCore now fetch raises arts url).exc = some msg := by
  obtain ⟨msg, hmsg⟩ := buildToSave_error url
    (max ((get_latest_article_time arts url).getD 0) (now - 24 * 3600)) es hbad
  refine ⟨?_, ?_, msg, ?_⟩ <;> simp only [collectSourceCore, hf, hmsg, Bool.false_eq_true, if_false]

theorem collectFeeds_raise (now : Int) (fetch : String → FetchResult)
    (raises : ArticleInput → Bool) (url : String) (es : List Entry)
    (rest : List String) (st : DB)
    (hf : fetch url = .doc false es)
    (hbad : ∃ e ∈ es, e.published_parsed = some none) :
    (collectFeeds now fetch raises (url :: rest) st).1.articles = st.articles ∧
    ∃ msg, (collectFeeds now fetch raises (url :: rest) st).2 = .error msg := by
  obtain ⟨ha, _, msg, hexc⟩ :=
    collectSourceCore_raise now fetch raises st.articles url es hf hbad
  simp only [collectFeeds, hexc]
  exact ⟨ha, msg, rfl⟩

/-- Claim C9 as amended: a fetch-stage fault (timeout or a bozo document) is
isolated — it leaves the articles table unchanged, contributes zero, writes a
log entry and no exception, and dropping such a source changes neither the
final articles nor the result, so the remaining sources are still processed
identically.  But an entry whose publish date is present yet unparseable
(`published_parsed` stored as `None`) raises a `TypeError` that `collect`
does not catch: the run aborts with the exception instead of a count and the
remaining sources are not processed. -/
theorem claim9_fault_isolation :
    (∀ (now : Int) (fetch : String → FetchResult) (raises : ArticleInput → Bool)
        (arts : List Article) (url : String),
      (fetch url = .timeout ∨ ∃ es, fetch url = .doc true es) →
      (collectSourceCore now fetch raises arts url).articles = arts ∧
      (collectSourceCore now fetch raises arts url).saved = 0 ∧
      (collectSourceCore now fetch raises arts url).exc = none ∧
      (collectSourceCore now fetch raises arts url).logs ≠ []) ∧
    (∀ (now : Int) (fetch : String → FetchResult) (raises : ArticleInput → Bool)
        (pre post : List String) (url : String) (st : DB),
      (fetch url = .timeout ∨ ∃ es, fetch url = .doc true es) →
      (collectFeeds now fetch raises (pre ++ url :: post) st).1.articles =
        (collectFeeds now fetch raises (pre ++ post) st).1.articles ∧
      (collectFeeds now fetch raises (pre ++ url :: post) st).2 =
        (collectFeeds now fetch raises (pre ++ post) st).2) ∧
    (∀ (now : Int) (fetch : String → FetchResult) (raises : ArticleInput → Bool)
        (url : String) (es : List Entry) (rest : List String) (st : DB),
      fetch url = .doc false es →
      (∃ e ∈ es, e.published_parsed = some none) →
      (collectFeeds now fetch raises (url :: rest) st).1.articles = st.articles ∧
      ∃ msg, (collectFeeds now fetch raises (url :: rest) st).2 = .error msg) := by
  refine ⟨fun now fetch raises arts url h =>
      collectSourceCore_fault now fetch raises arts url h, ?_,
    fun now fetch raises url es rest st hf hbad =>
      collectFeeds_raise now fetch raises url es rest st hf hbad⟩
  intro now fetch raises pre
  induction pre with
  | nil =>
    intro post url st h
    have hf := collectSourceCore_fault now fetch raises st.articles url h
    simp only [List.nil_append, collectFeeds, hf.2.2.1]
    have h1 := collectFeeds_logs_irrelevant now fetch raises post
      ⟨(collectSourceCore now fetch raises st.articles url).articles,
        st.logs ++ (collectSourceCore now fetch raises st.articles url).logs⟩
      st (by rw [hf.1])
    refine ⟨h1.1, ?_⟩
    rw [hf.2.1, h1.2]
    cases hpost : (collectFeeds now fetch raises post st).2 with
    | error e => rfl
    | ok n => simp [Except.map]
  | cons u pre ih =>
    intro post url st h
    simp only [List.cons_append, collectFeeds]
    cases hexc : (collectSourceCore now fetch raises st.articles u).exc with
    | some msg => exact ⟨rfl, rfl⟩
    | none =>
      have h1 := ih post url
        ⟨(collectSourceCore now fetch raises st.articles u).articles,
          st.logs ++ (collectSourceCore now fetch raises st.articles u).logs⟩ h
      exact ⟨h1.1, by simp only [List.append_eq]; rw [h1.2]⟩

def c9badEntry : Entry :=
  { published_parsed := some none, published_str := "", title := some "B"
    link := some "LB", description := none, summary := none
    content := none, content_encoded := none }

def c9goodEntry : Entry :=
  { published_parsed := some (some 150000), published_str := "ps", title := some "G"
    link := some "LG", description := some "D", summary := none
    content := none, content_encoded := none }

def c9fetch : String → FetchResult :=
  fun u =>
    if u = "https://cointelegraph.com/rss" then .doc false [c9badEntry]
    else .doc false [c9goodEntry]

/-- Counterexample to C9 as stated: one entry of the first feed has a
present-but-unparseable publish date, and `collect` ends in the propagating
`TypeError` instead of returning a count, with the insertable article of every
remaining source never stored — the fault is not isolated to its source. -/
theorem claim9_counterexample :
    (collect 200000 c9fetch (fun _ => false) ⟨[], []⟩).2 =
      .error "TypeError: NoneType object is not subscriptable" ∧
    (collect 200000 c9fetch (fun _ => false) ⟨[], []⟩).1.articles = [] := by
  exact ⟨rfl, rfl⟩

/-- Witness for the amended C9 at a concrete fetch oracle: a timing-out feed
leaves the table unchanged, contributes zero, logs, and raises nothing. -/
theorem claim9_fault_isolation_witness :
    ((fun _ => FetchResult.timeout) "https://u.today/rss" = FetchResult.timeout ∨
      ∃ es, (fun _ => FetchResult.timeout) "https://u.today/rss" = .doc true es) ∧
    ((collectSourceCore 200000 (fun _ => FetchResult.timeout) (fun _ => false) []
        "https://u.today/rss").articles = [] ∧
     (collectSourceCore 200000 (fun _ => FetchResult.timeout) (fun _ => false) []
        "https://u.today/rss").saved = 0 ∧
     (collectSourceCore 200000 (fun _ => FetchResult.timeout) (fun _ => false) []
        "https://u.today/rss").exc = none ∧
     (collectSourceCore 200000 (fun _ => FetchResult.timeout) (fun _ => false) []
        "https://u.today/rss").logs ≠ []) :=
  ⟨Or.inl rfl,
    claim9_fault_isolation.1 200000 (fun _ => FetchResult.timeout) (fun _ => false) []
      "https://u.today/rss" (Or.inl rfl)⟩

/-! ## Claim C1 -/

theorem maxTs_mem (l : List Int) : ∀ m, maxTs l = some m → m ∈ l := by
  induction l with
  | nil => intro m h; simp [maxTs] at h
  | cons t ts ih =>
    intro m h
    simp only [maxTs] at h
    cases hm : maxTs ts with
    | none =>
      rw [hm] at h
      simp only [Option.some.injEq] at h
      simp [← h]
    | some m' =>
      rw [hm] at h
      simp only [Option.some.injEq] at h
      rcases le_total t m' with hle | hle
      · rw [max_eq_right hle] at h
        exact List.mem_cons_of_mem _ (h ▸ ih m' hm)
      · rw [max_eq_left hle] at h
        simp [← h]

theorem maxTs_le (l : List Int) : ∀ t ∈ l, ∃ m, maxTs l = some m ∧ t ≤ m := by
  induction l with
  | nil => intro t h; simp at h
  | cons s ts ih =>
    intro t h
    simp only [maxTs]
    cases hm : maxTs ts with
    | none =>
      rcases List.mem_cons.mp h with rfl | hts
      · exact ⟨t, rfl, le_refl t⟩
      · obtain ⟨m, hm', _⟩ := ih t hts
        rw [hm'] at hm
        cases hm
    | some m' =>
      rcases List.mem_cons.mp h with rfl | hts
      · exact ⟨max t m', rfl, le_max_left _ _⟩
      · obtain ⟨m, hm', hle⟩ := ih t hts
        have : m = m' := Option.some.inj (hm'.symm.trans hm)
        exact ⟨max s m', rfl, le_trans (this ▸ hle) (le_max_right _ _)⟩

theorem get_latest_mem (arts : List Article) (src : String) (m : Int)
    (h : get_latest_article_time arts src = some m) :
    ∃ b, b ∈ arts ∧ b.source = src ∧ b.published_ts = m := by
  have h1 := maxTs_mem _ m h
  obtain ⟨b, hb, hbe⟩ := List.mem_map.mp h1
  have h2 := List.mem_filter.mp hb
  refine ⟨b, h2.1, ?_, hbe⟩
  simpa using h2.2

theorem get_latest_ge (arts : List Article) (src : String) (b : Article)
    (hb : b ∈ arts) (hs : b.source = src) :
    ∃ m, get_latest_article_time arts src = some m ∧ b.published_ts ≤ m := by
  apply maxTs_le
  exact List.mem_map_of_mem _ (List.mem_filter.mpr ⟨hb, by simp [hs]⟩)

theorem save_articles_grow (raises : ArticleInput → Bool) (batch : List ArticleInput) :
    ∀ (arts : List Article) (a : Article), a ∈ arts →
      a ∈ (save_articles raises arts batch).1 := by
  induction batch with
  | nil => intro arts a h; exact h
  | cons b rest ih =>
    intro arts a h
    simp only [save_articles]
    by_cases hr : raises b = true
    · rw [if_pos hr]; exact ih arts a h
    · rw [if_neg hr]
      by_cases hl : hasLink arts b.toRow.link = true
      · rw [if_pos hl]; exact ih arts a h
      · rw [if_neg hl]; exact ih (arts ++ [b.toRow]) a (List.mem_append_left _ h)

theorem save_articles_mem (raises : ArticleInput → Bool) (batch : List ArticleInput) :
    ∀ (arts : List Article) (a : Article), a ∈ (save_articles raises arts batch).1 →
      a ∈ arts ∨ ∃ x ∈ batch, a = x.toRow := by
  induction batch with
  | nil => intro arts a h; exact Or.inl h
  | cons b rest ih =>
    intro arts a h
    simp only [save_articles] at h
    by_cases hr : raises b = true
    · rw [if_pos hr] at h
      rcases ih arts a h with h' | ⟨x, hx, he⟩
      · exact Or.inl h'
      · exact Or.inr ⟨x, List.mem_cons_of_mem _ hx, he⟩
    · rw [if_neg hr] at h
      by_cases hl : hasLink arts b.toRow.link = true
      · rw [if_pos hl] at h
        rcases ih arts a h with h' | ⟨x, hx, he⟩
        · exact Or.inl h'
        · exact Or.inr ⟨x, List.mem_cons_of_mem _ hx, he⟩
      · rw [if_neg hl] at h
        rcases ih (arts ++ [b.toRow]) a h with h' | ⟨x, hx, he⟩
        · rcases List.mem_append.mp h' with h'' | h''
          · exact Or.inl h''
          · simp only [List.mem_singleton] at h''
            exact Or.inr ⟨b, List.mem_cons_self _ _, h''⟩
        · exact Or.inr ⟨x, List.mem_cons_of_mem _ hx, he⟩

theorem normalizeEntry_ok (url : String) (th : Int) (e : Entry) (y : ArticleInput)
    (h : normalizeEntry url th e = .ok (some y)) :
    y.source = url ∧ th < y.published_ts := by
  cases hp : e.published_parsed with
  | none => simp [normalizeEntry, hp] at h
  | some o =>
    cases o with
    | none => simp [normalizeEntry, hp] at h
    | some ts =>
      by_cases hle : ts ≤ th
      · simp [normalizeEntry, hp, hle] at h
      · simp only [normalizeEntry, hp, if_neg hle, Except.ok.injEq, Option.some.injEq] at h
        subst h
        refine ⟨rfl, ?_⟩
        show th < ts
        omega

theorem buildToSave_mem (url : String) (th : Int) :
    ∀ (es : List Entry) (l : List ArticleInput), buildToSave url th es = .ok l →
      ∀ x ∈ l, x.source = url ∧ th < x.published_ts := by
  intro es
  induction es with
  | nil =>
    intro l hl x hx
    simp only [buildToSave, Except.ok.injEq] at hl
    subst hl
    simp at hx
  | cons e rest ih =>
    intro l hl x hx
    simp only [buildToSave] at hl
    cases hn : normalizeEntry url th e with
    | error msg => rw [hn] at hl; cases hl
    | ok o =>
      rw [hn] at hl
      cases o with
      | none => exact ih l hl x hx
      | some y =>
        cases hr : buildToSave url th rest with
        | error m => rw [hr] at hl; simp [Except.map] at hl
        | ok l' =>
          rw [hr] at hl
          simp only [Except.map, Except.ok.injEq] at hl
          subst hl
          rcases List.mem_cons.mp hx with rfl | hx'
          · exact normalizeEntry_ok url th e x hn
          · exact ih l' hr x hx'

theorem collectSourceCore_mem (now : Int) (fetch : String → FetchResult)
    (raises : ArticleInput → Bool) (arts : List Article) (url : String) :
    ∀ a ∈ (collectSourceCore now fetch raises arts url).articles,
      a ∈ arts ∨ (a.source = pyStrip url ∧
        max ((get_latest_article_time arts url).getD 0) (now - 24 * 3600) < a.published_ts) := by
  intro a ha
  simp only [collectSourceCore] at ha
  cases hf : fetch url with
  | timeout => rw [hf] at ha; exact Or.inl ha
  | doc bozo entries =>
    rw [hf] at ha
    dsimp only at ha
    by_cases hb : bozo = true
    · rw [if_pos hb] at ha; exact Or.inl ha
    · rw [if_neg hb] at ha
      cases hbs : buildToSave url
          (max ((get_latest_article_time arts url).getD 0) (now - 24 * 3600)) entries with
      | error msg => rw [hbs] at ha; exact Or.inl ha
      | ok to_save =>
        rw [hbs] at ha
        dsimp only at ha
        by_cases hts : to_save.isEmpty
        · simp only [hts, Bool.not_true, Bool.false_eq_true, if_false] at ha
          exact Or.inl ha
        · simp only [eq_false_of_ne_true hts, Bool.not_false, if_true] at ha
          rcases save_articles_mem raises _ arts a ha with h' | ⟨x, hx, he⟩
          · exact Or.inl h'
          · have hn := buildToSave_mem url _ entries to_save hbs x hx
            refine Or.inr ⟨?_, ?_⟩
            · rw [he]; show pyStrip x.source = pyStrip url; rw [hn.1]
            · rw [he]; exact hn.2

theorem collectSourceCore_grow (now : Int) (fetch : String → FetchResult)
    (raises : ArticleInput → Bool) (arts : List Article) (url : String) :
    ∀ a ∈ arts, a ∈ (collectSourceCore now fetch raises arts url).articles := by
  intro a ha
  simp only [collectSourceCore]
  cases hf : fetch url with
  | timeout => exact ha
  | doc bozo entries =>
    dsimp only
    by_cases hb : bozo = true
    · rw [if_pos hb]; exact ha
    · rw [if_neg hb]
      cases hbs : buildToSave url
          (max ((get_latest_article_time arts url).getD 0) (now - 24 * 3600)) entries with
      | error msg => exact ha
      | ok to_save =>
        dsimp only
        by_cases hts : to_save.isEmpty
        · simp only [hts, Bool.not_true, Bool.false_eq_true, if_false]
          exact ha
        · simp only [eq_false_of_ne_true hts, Bool.not_false, if_true]
          exact save_articles_grow raises _ arts a ha

theorem threshold_mono (now : Int) (db₀ arts : List Article) (url : String)
    (hsub : ∀ b ∈ db₀, b ∈ arts)
    (hP : ∀ a ∈ arts, a ∈ db₀ ∨
      max ((get_latest_article_time db₀ a.source).getD 0) (now - 24 * 3600) < a.published_ts) :
    max ((get_latest_article_time db₀ url).getD 0) (now - 24 * 3600) ≤
      max ((get_latest_article_time arts url).getD 0) (now - 24 * 3600) := by
  cases h0 : get_latest_article_time db₀ url with
  | none =>
    cases h1 : get_latest_article_time arts url with
    | none => exact le_refl _
    | some m =>
      obtain ⟨b, hb, hbs, hbt⟩ := get_latest_mem arts url m h1
      rcases hP b hb with hbin | hgt
      · obtain ⟨m0, hm0, _⟩ := get_latest_ge db₀ url b hbin hbs
        rw [h0] at hm0
        cases hm0
      · rw [hbs, h0] at hgt
        simp only [Option.getD_none] at hgt
        simp only [Option.getD_none, Option.getD_some]
        calc max 0 (now - 24 * 3600) ≤ m := le_of_lt (hbt ▸ hgt)
          _ ≤ max m (now - 24 * 3600) := le_max_left _ _
  | some T =>
    obtain ⟨b0, hb0, hb0s, hb0t⟩ := get_latest_mem db₀ url T h0
    obtain ⟨m, hm, hTle⟩ := get_latest_ge arts url b0 (hsub b0 hb0) hb0s
    rw [hm]
    simp only [Option.getD_some]
    exact max_le_max (hb0t ▸ hTle) (le_refl _)

theorem collectFeeds_watermark (now : Int) (fetch : String → FetchResult)
    (raises : ArticleInput → Bool) :
    ∀ feeds : List String, (∀ u ∈ feeds, pyStrip u = u) →
      ∀ (st : DB) (db₀ : List Article),
        (∀ b ∈ db₀, b ∈ st.articles) →
        (∀ a ∈ st.articles, a ∈ db₀ ∨
          max ((get_latest_article_time db₀ a.source).getD 0) (now - 24 * 3600) <
            a.published_ts) →
        ∀ a ∈ (collectFeeds now fetch raises feeds st).1.articles,
          a ∈ db₀ ∨
            max ((get_latest_article_time db₀ a.source).getD 0) (now - 24 * 3600) <
              a.published_ts := by
  intro feeds
  induction feeds with
  | nil => intro _ st db₀ _ hP a ha; exact hP a ha
  | cons url rest ih =>
    intro htrim st db₀ hsub hP a ha
    simp only [collectFeeds] at ha
    cases hexc : (collectSourceCore now fetch raises st.articles url).exc with
    | some msg =>
      rw [hexc] at ha
      dsimp only at ha
      rcases collectSourceCore_mem now fetch raises st.articles url a ha with h' | ⟨hbs, hbt⟩
      · exact hP a h'
      · right
        rw [hbs, htrim url (List.mem_cons_self _ _)]
        exact lt_of_le_of_lt (threshold_mono now db₀ st.articles url hsub hP) hbt
    | none =>
      rw [hexc] at ha
      dsimp only at ha
      refine ih (fun u hu => htrim u (List.mem_cons_of_mem _ hu))
        ⟨(collectSourceCore now fetch raises st.articles url).articles,
          st.logs ++ (collectSourceCore now fetch raises st.articles url).logs⟩
        db₀ ?_ ?_ a ha
      · intro b hb
        exact collectSourceCore_grow now fetch raises st.articles url b (hsub b hb)
      · intro b hb
        rcases collectSourceCore_mem now fetch raises st.articles url b hb with hb' | ⟨hbs, hbt⟩
        · exact hP b hb'
        · right
          rw [hbs, htrim url (List.mem_cons_self _ _)]
          exact lt_of_le_of_lt (threshold_mono now db₀ st.articles url hsub hP) hbt

theorem feeds_trim : ∀ u ∈ FEEDS, pyStrip u = u := by decide

/-- Claim C1: the fetch watermark `collect` uses for a source is
`max(latest stored published_ts for that source — 0 if none — , now − 24h)`,
an entry is retained only when its parsed timestamp is strictly greater, and
no article at or below the pre-run watermark of its source is ever inserted
by a `collect` run. -/
theorem claim1_watermark :
    (∀ (now : Int) (fetch : String → FetchResult) (raises : ArticleInput → Bool)
        (arts : List Article) (url : String) (a : Article),
      a ∈ (collectSourceCore now fetch raises arts url).articles →
      a ∈ arts ∨ (a.source = pyStrip url ∧
        max ((get_latest_article_time arts url).getD 0) (now - 24 * 3600) < a.published_ts)) ∧
    (∀ (now : Int) (fetch : String → FetchResult) (raises : ArticleInput → Bool)
        (st : DB) (a : Article),
      a ∈ (collect now fetch raises st).1.articles →
      a ∈ st.articles ∨
        max ((get_latest_article_time st.articles a.source).getD 0) (now - 24 * 3600) <
          a.published_ts) := by
  refine ⟨fun now fetch raises arts url a ha =>
    collectSourceCore_mem now fetch raises arts url a ha, ?_⟩
  intro now fetch raises st a ha
  exact collectFeeds_watermark now fetch raises FEEDS feeds_trim st st.articles
    (fun b hb => hb) (fun b hb => Or.inl hb) a ha

def c1fetch : String → FetchResult :=
  fun u =>
    if u = "https://cointelegraph.com/rss"
    then .doc false [{ published_parsed := some (some 150000), published_str := "ps"
                       title := some "T", link := some "L", description := some "D"
                       summary := none, content := none, content_encoded := none }]
    else .timeout

def c1row : Article :=
  { title := "T", link := "L", source := "https://cointelegraph.com/rss"
    published_ts := 150000, published_str := some "ps", description := some "D"
    content := some "", content_encoded := some "" }

/-- Witness for C1: on a cold store, the one article a run inserts sits
strictly above the `now − 24h` watermark of its source. -/
theorem claim1_watermark_witness :
    c1row ∈ (collect 200000 c1fetch (fun _ => false) ⟨[], []⟩).1.articles ∧
    (c1row ∈ ([] : List Article) ∨
      max ((get_latest_article_time [] c1row.source).getD 0) (200000 - 24 * 3600) <
        c1row.published_ts) :=
  ⟨by decide,
    claim1_watermark.2 200000 c1fetch (fun _ => false) ⟨[], []⟩ c1row (by decide)⟩

end CryptoNews
